import Mathlib

/-!
Verification of the Hexa-Server booking/services backend.

The development shallowly embeds the server's authentication-and-routing
core (`src/index.js`, plus the older variant `src/unnamed/part_000` whose
shared handlers are line-for-line identical in behavior):

* the JWT token service (`jwt.sign` in the `POST /jwt-auth` handler,
  `jwt.verify` in `authenticateJWT`), modelled over an abstract signing
  function `mac`;
* the `authenticateJWT` cookie middleware;
* the five service/booking route handlers, with the MongoDB collections
  modelled as Lean lists of documents and `ObjectId` construction modelled
  as validating 24-character hex strings.

Machine-level details follow the JavaScript source: truthiness checks on
strings (`if (token)`, `if (req.query?.email)`) test for a nonempty value,
and an exception thrown outside a handler's `try` block escapes the handler
(modelled as `HResult.thrown`, a terminated request with no response).
-/

set_option autoImplicit false

namespace HexaServer

/-- A value occupying the `token` cookie (or the `email` query parameter
slot). A string at the HTTP boundary is either a well-formed signed-JWT
encoding, carrying a claims payload, an expiry timestamp (seconds) and a
signature, or some other raw string (possibly empty). -/
inductive TokenStr where
  | jwt (payload : String) (exp : Nat) (sig : Nat)
  | raw (s : String)
  deriving DecidableEq, Repr

/-- JavaScript truthiness of the cookie value: a well-formed JWT encoding is
a nonempty string, hence truthy; a raw string is truthy iff nonempty. -/
def tokenTruthy : TokenStr → Bool
  | .jwt _ _ _ => true
  | .raw s => s ≠ ""

/-- Abstract model of the HMAC signature `jsonwebtoken` computes from the
payload, the expiry claim and the server secret (`ACCESS_TOKEN_SECRET`). -/
def mac (secret payload : String) (exp : Nat) : Nat :=
  (payload.data ++ secret.data).foldl (fun h c => h * 131 + c.toNat) 7 + exp * 1009

/-- Result of `jwt.verify`: the decoded claims, or an error (the library's
`JsonWebTokenError` / `TokenExpiredError`, merged as the middleware only
branches on error vs. success). -/
inductive VerifyResult where
  | ok (claims : String)
  | err
  deriving DecidableEq, Repr

/-- Model of `jwt.verify(token, secret, cb)` at current time `now`: succeeds
iff the signature matches the server secret and the expiry timestamp has not
passed; any raw non-JWT string is malformed and fails. -/
def verify (secret : String) (now : Nat) : TokenStr → VerifyResult
  | .jwt p e s => if s = mac secret p e ∧ now < e then .ok p else .err
  | .raw _ => .err

/-- Model of `jwt.sign(user, secret, { expiresIn: "1h" })` at time `now`
(the token issued by the `POST /jwt-auth` handler): embeds an expiry
timestamp one hour (3600 s) from issuance and signs payload and expiry. -/
def issueToken (secret : String) (now : Nat) (claims : String) : TokenStr :=
  .jwt claims (now + 3600) (mac secret claims (now + 3600))

/-- Outcome of running the `authenticateJWT` middleware on a request:
either a status-only response was sent (`res.sendStatus`, the route handler
never runs), or `next()` was called with the decoded claims attached as
`req.user` and the handler runs. -/
inductive MwOutcome where
  | sent (status : Nat)
  | handlerRuns (user : String)
  deriving DecidableEq, Repr

/-- Model of the `authenticateJWT` middleware (src/index.js lines 45-59):
reads `req.cookies.token`; if truthy, calls `jwt.verify` and sends 403 on
error or attaches `req.user` and calls `next()` on success; otherwise
(cookie absent, or present with a falsy empty value) sends 401. -/
def authenticateJWT (secret : String) (now : Nat)
    (cookiesToken : Option TokenStr) : MwOutcome :=
  match cookiesToken with
  | some t =>
    if tokenTruthy t then
      match verify secret now t with
      | .err => .sent 403
      | .ok user => .handlerRuns user
    else .sent 401
  | none => .sent 401

/-- Hex digit test for `ObjectId` string validation. -/
def isHexDigit (c : Char) : Bool :=
  ( '0' ≤ c && c ≤ '9' ) || ( 'a' ≤ c && c ≤ 'f' ) || ( 'A' ≤ c && c ≤ 'F' )

/-- Numeric value of a hex digit. -/
def hexVal (c : Char) : Nat :=
  if c.toNat ≤ 57 then c.toNat - 48
  else if c.toNat ≤ 70 then c.toNat - 55
  else c.toNat - 87

/-- Model of `new ObjectId(id)` applied to a path parameter: a 24-character
hexadecimal string converts to the store's native identifier (represented by
its numeric value); any other string makes the constructor throw a
`BSONError`, modelled as `none`. -/
def objectIdOf (s : String) : Option Nat :=
  if s.data.length = 24 ∧ s.data.all isHexDigit then
    some (s.data.foldl (fun n c => n * 16 + hexVal c) 0)
  else none

/-- A document of the `services` collection: a store-assigned identifier
plus opaque further fields. -/
structure SDoc where
  oid : Nat
  fields : String
  deriving DecidableEq, Repr

/-- A document of the `booking` collection: a store-assigned identifier, an
optional `email` field (absent when the inserted body had none), and opaque
further fields. -/
structure BDoc where
  oid : Nat
  email : Option String
  fields : String
  deriving DecidableEq, Repr

/-- State of the `HexaaDB` database: the `services` and `booking`
collections, plus the driver's fresh-identifier source for inserts. -/
structure Store where
  services : List SDoc
  booking : List BDoc
  nextOid : Nat
  deriving DecidableEq, Repr

/-- A JSON response body, covering the shapes the handlers send: a single
service document, an array of service or booking documents, a
`{ message: ... }` error object (the raw driver error alongside it is not
modelled), an insert acknowledgment `{ acknowledged, insertedId }`, or a
delete acknowledgment `{ acknowledged, deletedCount }`. -/
inductive Body where
  | docS (d : SDoc)
  | docsS (l : List SDoc)
  | docsB (l : List BDoc)
  | msg (m : String)
  | insertAck (acknowledged : Bool) (insertedId : Nat)
  | deleteAck (acknowledged : Bool) (deletedCount : Nat)
  deriving DecidableEq, Repr

/-- Result of one request to a route handler: a response with a status and
a body (`res.status(st).send(body)`), or an exception that escaped the
handler's `try`/`catch`, so the handler terminated sending no response. -/
inductive HResult where
  | response (status : Nat) (body : Body)
  | thrown
  deriving DecidableEq, Repr

/-- Model of `servicesCollection.findOne({ _id: oid })`: the first document
of the collection whose identifier equals `oid`, if any. -/
def findOneService (l : List SDoc) (oid : Nat) : Option SDoc :=
  l.find? (fun d => d.oid = oid)

/-- Handler of `GET /api/v1/services` (src/index.js lines 102-109): sends
all documents of the `services` collection with status 200. The store is a
Lean value, so the driver-failure branch of the `catch` (status 500) is
unreachable in the model. -/
def listServices (s : Store) : HResult :=
  .response 200 (.docsS s.services)

/-- Handler of `GET /api/v1/services/:id` (src/index.js lines 111-124, and
src/unnamed/part_000 lines 80-93, identical): builds
`{ _id: new ObjectId(id) }` BEFORE entering the `try` block, so an invalid
identifier string makes the `ObjectId` constructor throw outside the
`catch` and the handler terminates with no response (`thrown`). A valid
identifier is looked up with `findOne`: status 200 with the document when
found, else status 404 with `{ message: "Service not found" }`. -/
def getServiceById (s : Store) (id : String) : HResult :=
  match objectIdOf id with
  | none => .thrown
  | some oid =>
    match findOneService s.services oid with
    | some doc => .response 200 (.docS doc)
    | none => .response 404 (.msg "Service not found")

/-- JavaScript truthiness of the `email` query parameter: present and
nonempty. -/
def emailTruthy : Option String → Bool
  | some e => e ≠ ""
  | none => false

/-- The `query` object the `GET /api/v1/booking` handler passes to `find`:
`{}` (no filter, `none`) unless `req.query?.email` is truthy, in which case
`{ email: req.query.email }` (`some email`). -/
def bookingQuery (emailParam : Option String) : Option String :=
  match emailParam with
  | some e => if e ≠ "" then some e else none
  | none => none

/-- Model of `bookingCollection.find(query).toArray()`: all documents for
the empty filter, and for filter `{ email: e }` exactly the documents whose
`email` field is present and equal to `e`. -/
def findBookings (l : List BDoc) (query : Option String) : List BDoc :=
  match query with
  | none => l
  | some e => l.filter (fun d => d.email = some e)

/-- Handler of `GET /api/v1/booking` (src/index.js lines 130-141, and
src/unnamed/part_000 lines 103-114, identical): builds the filter from the
optional `email` query parameter and sends the matching booking documents
with status 200. -/
def listBookings (s : Store) (emailParam : Option String) : HResult :=
  .response 200 (.docsB (findBookings s.booking (bookingQuery emailParam)))

/-- The request body of `POST /api/v1/booking`: an arbitrary document, an
optional `email` field plus opaque further fields, with no identifier yet. -/
structure BookingBody where
  email : Option String
  fields : String
  deriving DecidableEq, Repr

/-- Handler of `POST /api/v1/booking` (src/index.js lines 143-151): inserts
the request body into the `booking` collection with a store-assigned fresh
identifier and sends the insert acknowledgment with status 201. Returns the
updated store alongside the response. -/
def createBooking (s : Store) (body : BookingBody) : HResult × Store :=
  let d : BDoc := { oid := s.nextOid, email := body.email, fields := body.fields }
  (.response 201 (.insertAck true s.nextOid),
    { s with booking := s.booking ++ [d], nextOid := s.nextOid + 1 })

/-- Model of `bookingCollection.deleteOne({ _id: oid })`: removes the first
document whose identifier equals `oid`, returning the remaining collection
and the `deletedCount` (1 if a document matched, else 0). -/
def deleteOneBooking : List BDoc → Nat → List BDoc × Nat
  | [], _ => ([], 0)
  | d :: rest, oid =>
    if d.oid = oid then (rest, 1)
    else
      let r := deleteOneBooking rest oid
      (d :: r.1, r.2)

/-- Handler of `DELETE /api/v1/booking/:id` (src/index.js lines 153-162):
here `new ObjectId(id)` sits INSIDE the `try` block, so an invalid
identifier string is caught and answered with status 500 and
`{ message: "Error deleting booking" }`. A valid identifier is passed to
`deleteOne` and the acknowledgment is sent with status 200 (also when
nothing matched). Returns the updated store alongside the response. -/
def deleteBookingById (s : Store) (id : String) : HResult × Store :=
  match objectIdOf id with
  | none => (.response 500 (.msg "Error deleting booking"), s)
  | some oid =>
    let r := deleteOneBooking s.booking oid
    (.response 200 (.deleteAck true r.2), { s with booking := r.1 })

/-- One API call to a service or booking endpoint, with its route
parameters, query parameters and body. -/
inductive ApiCall where
  | listServicesCall
  | getServiceCall (id : String)
  | listBookingsCall (email : Option String)
  | createBookingCall (body : BookingBody)
  | deleteBookingCall (id : String)
  deriving DecidableEq, Repr

/-- An incoming HTTP request to one of the five service/booking endpoints:
the call and the value of the `token` cookie, if any. -/
structure Request where
  call : ApiCall
  cookieToken : Option TokenStr
  deriving DecidableEq, Repr

/-- Dispatch of a request as src/index.js registers the routes: every
`app.get`/`app.post`/`app.delete` call for these five endpoints passes the
handler directly, with no middleware in the chain (`authenticateJWT` is
defined at lines 45-59 but attached to no route), so the handler always
runs and no handler reads `req.cookies`. Returns the response and the
updated store. -/
def handleRequest (s : Store) (req : Request) : HResult × Store :=
  match req.call with
  | .listServicesCall => (listServices s, s)
  | .getServiceCall id => (getServiceById s id, s)
  | .listBookingsCall email => (listBookings s email, s)
  | .createBookingCall body => createBooking s body
  | .deleteBookingCall id => deleteBookingById s id

/-- The status of the response the handler sent, or `none` when the handler
terminated without sending a response. -/
def sentStatus : HResult → Option Nat
  | .response st _ => some st
  | .thrown => none

/-- A sample database state used to instantiate the theorems: two services
and four bookings, among them addresses differing from `"a@x.com"` only in
case or by truncation. -/
def sampleStore : Store where
  services := [⟨1, "cleaning"⟩, ⟨2, "repair"⟩]
  booking := [⟨5, some "a@x.com", "b1"⟩, ⟨6, some "A@X.com", "b2"⟩,
              ⟨7, some "a@x", "b3"⟩, ⟨8, none, "b4"⟩]
  nextOid := 9

/-- In a collection with pairwise distinct identifiers, `findOne` on the
identifier of a member document returns exactly that document. -/
theorem findOneService_eq_of_mem (l : List SDoc) (oid : Nat) (d : SDoc)
    (hnd : (l.map SDoc.oid).Nodup) (hm : d ∈ l) (ho : d.oid = oid) :
    findOneService l oid = some d := by
  induction l with
  | nil => exact absurd hm (List.not_mem_nil d)
  | cons a l ih =>
    rw [List.map_cons, List.nodup_cons] at hnd
    rcases List.mem_cons.mp hm with rfl | hmem
    · simp [findOneService, List.find?_cons, ho]
    · have hane : ¬ a.oid = oid := by
        intro h
        have : a.oid ∈ l.map SDoc.oid := by
          rw [h, ← ho]; exact List.mem_map_of_mem SDoc.oid hmem
        exact hnd.1 this
      have htail := ih hnd.2 hmem
      simpa [findOneService, List.find?_cons, hane] using htail

/-- `findOne` returns nothing when no document of the collection carries the
identifier. -/
theorem findOneService_eq_none (l : List SDoc) (oid : Nat)
    (h : ∀ d ∈ l, d.oid ≠ oid) : findOneService l oid = none := by
  simp only [findOneService, List.find?_eq_none, decide_eq_true_eq]
  exact h

/-- `deleteOne` on an identifier carried by no document of the collection
leaves the collection unchanged and reports zero deletions. -/
theorem deleteOneBooking_of_not_mem (l : List BDoc) (oid : Nat)
    (h : oid ∉ l.map BDoc.oid) : deleteOneBooking l oid = (l, 0) := by
  induction l with
  | nil => rfl
  | cons a l ih =>
    rw [List.map_cons] at h
    have h1 : ¬ a.oid = oid := fun he => h (by simp [he])
    have h2 : oid ∉ l.map BDoc.oid := fun hm => h (by simp [hm])
    simp [deleteOneBooking, h1, ih h2]

/-- In a collection with pairwise distinct identifiers, `deleteOne` on an
identifier carried by some document reports one deletion and leaves a
collection no document of which carries the identifier. -/
theorem deleteOneBooking_of_mem (l : List BDoc) (oid : Nat)
    (hnd : (l.map BDoc.oid).Nodup) (hm : oid ∈ l.map BDoc.oid) :
    (deleteOneBooking l oid).2 = 1 ∧
      oid ∉ (deleteOneBooking l oid).1.map BDoc.oid := by
  induction l with
  | nil => simp at hm
  | cons a l ih =>
    rw [List.map_cons, List.nodup_cons] at hnd
    by_cases ha : a.oid = oid
    · have hres : deleteOneBooking (a :: l) oid = (l, 1) := by
        simp [deleteOneBooking, ha]
      rw [hres]
      exact ⟨rfl, ha ▸ hnd.1⟩
    · have hm' : oid ∈ l.map BDoc.oid := by
        rcases List.mem_cons.mp (List.map_cons BDoc.oid a l ▸ hm) with h | h
        · exact absurd h.symm ha
        · exact h
      obtain ⟨hc, hnin⟩ := ih hnd.2 hm'
      have hres : deleteOneBooking (a :: l) oid =
          (a :: (deleteOneBooking l oid).1, (deleteOneBooking l oid).2) := by
        simp [deleteOneBooking, ha]
      rw [hres]
      refine ⟨hc, ?_⟩
      rw [List.map_cons]
      intro hmm
      rcases List.mem_cons.mp hmm with h | h
      · exact ha h.symm
      · exact hnin h

/-- C1, counterexample. The claim says a present `token` cookie whose value
fails verification is answered with 403. A cookie present with the empty
string as value fails verification, yet the middleware's truthiness check
`if (token)` sends it down the absent-cookie branch: the response is 401,
not 403. -/
theorem C1_counterexample :
    verify "secret" 0 (TokenStr.raw "") = VerifyResult.err ∧
    authenticateJWT "secret" 0 (some (TokenStr.raw "")) = MwOutcome.sent 401 ∧
    MwOutcome.sent 401 ≠ MwOutcome.sent 403 := by decide

/-- C1, amended. The `authenticateJWT` middleware responds 401 when the
`token` cookie is absent or present with an empty (falsy) value; when the
cookie is present with a nonempty value and verification fails it responds
403 and the handler never runs; when verification succeeds it attaches the
decoded claims as `req.user` and the handler runs. -/
theorem C1_auth_middleware_amended (secret : String) (now : Nat)
    (cookie : Option TokenStr) :
    (cookie = none → authenticateJWT secret now cookie = .sent 401) ∧
    (cookie = some (TokenStr.raw "") →
      authenticateJWT secret now cookie = .sent 401) ∧
    (∀ t, cookie = some t → t ≠ TokenStr.raw "" → verify secret now t = .err →
      authenticateJWT secret now cookie = .sent 403) ∧
    (∀ t u, cookie = some t → verify secret now t = .ok u →
      authenticateJWT secret now cookie = .handlerRuns u) := by
  refine ⟨fun h => by rw [h]; rfl, fun h => by rw [h]; rfl, ?_, ?_⟩
  · rintro t rfl hne hv
    match t, hv with
    | .jwt p e sg, hv => simp [authenticateJWT, tokenTruthy, hv]
    | .raw s, hv =>
      have hs : s ≠ "" := fun h => hne (by rw [h])
      simp [authenticateJWT, tokenTruthy, hs, hv]
  · rintro t u rfl hv
    match t, hv with
    | .jwt p e sg, hv => simp [authenticateJWT, tokenTruthy, hv]
    | .raw s, hv => exact absurd hv (by simp [verify])

/-- C1, amended, witness: all four branches at concrete inputs. -/
theorem C1_auth_middleware_amended_witness :
    authenticateJWT "k" 0 none = .sent 401 ∧
    authenticateJWT "k" 0 (some (TokenStr.raw "")) = .sent 401 ∧
    authenticateJWT "k" 0 (some (TokenStr.raw "bad")) = .sent 403 ∧
    authenticateJWT "k" 5 (some (TokenStr.jwt "alice" 3600 (mac "k" "alice" 3600))) =
      .handlerRuns "alice" :=
  ⟨(C1_auth_middleware_amended "k" 0 none).1 rfl,
   (C1_auth_middleware_amended "k" 0 (some (TokenStr.raw ""))).2.1 rfl,
   (C1_auth_middleware_amended "k" 0 (some (TokenStr.raw "bad"))).2.2.1
     (TokenStr.raw "bad") rfl (by decide) (by decide),
   (C1_auth_middleware_amended "k" 5
       (some (TokenStr.jwt "alice" 3600 (mac "k" "alice" 3600)))).2.2.2
     (TokenStr.jwt "alice" 3600 (mac "k" "alice" 3600)) "alice" rfl (by decide)⟩

/-- C3. Token round-trip: a token issued by the `POST /jwt-auth` handler's
`jwt.sign` call at time `t0` verifies successfully at any time before the
embedded one-hour expiry, and `jwt.verify` returns the claims payload
unchanged. -/
theorem C3_token_roundtrip (secret claims : String) (t0 now : Nat)
    (h : now < t0 + 3600) :
    verify secret now (issueToken secret t0 claims) = .ok claims := by
  simp [verify, issueToken, h]

/-- C3, witness: a token issued at time 0 verifies at time 3599. -/
theorem C3_token_roundtrip_witness :
    verify "k" 3599 (issueToken "k" 0 "a@x.com") = .ok "a@x.com" :=
  C3_token_roundtrip "k" "a@x.com" 0 3599 (by decide)

/-- C4. A structured token whose expiry timestamp has passed, or whose
signature does not match the server secret, fails `jwt.verify`; likewise
any nonempty malformed token string. In each case a request carrying the
token in the `token` cookie is answered 403 by `authenticateJWT` and the
handler never runs. -/
theorem C4_expired_or_tampered_rejected (secret : String) (now : Nat) :
    (∀ p e sg, e ≤ now ∨ sg ≠ mac secret p e →
      verify secret now (TokenStr.jwt p e sg) = .err ∧
      authenticateJWT secret now (some (TokenStr.jwt p e sg)) = .sent 403) ∧
    (∀ str, str ≠ "" →
      verify secret now (TokenStr.raw str) = .err ∧
      authenticateJWT secret now (some (TokenStr.raw str)) = .sent 403) := by
  constructor
  · intro p e sg h
    have hv : verify secret now (TokenStr.jwt p e sg) = .err := by
      rcases h with h | h
      · simp [verify, Nat.not_lt.mpr h]
      · simp [verify, h]
    exact ⟨hv, by simp [authenticateJWT, tokenTruthy, hv]⟩
  · intro str hs
    exact ⟨rfl, by simp [authenticateJWT, tokenTruthy, hs, verify]⟩

/-- C4, witness: an expired token, a tampered-signature token and a
malformed cookie value, all rejected with 403. -/
theorem C4_expired_or_tampered_rejected_witness :
    authenticateJWT "k" 4000 (some (TokenStr.jwt "u" 3600 (mac "k" "u" 3600))) =
      .sent 403 ∧
    authenticateJWT "k" 0 (some (TokenStr.jwt "u" 3600 (mac "k" "u" 3600 + 1))) =
      .sent 403 ∧
    authenticateJWT "k" 0 (some (TokenStr.raw "garbage")) = .sent 403 :=
  ⟨((C4_expired_or_tampered_rejected "k" 4000).1 "u" 3600 (mac "k" "u" 3600)
      (Or.inl (by decide))).2,
   ((C4_expired_or_tampered_rejected "k" 0).1 "u" 3600 (mac "k" "u" 3600 + 1)
      (Or.inr (by decide))).2,
   ((C4_expired_or_tampered_rejected "k" 0).2 "garbage" (by decide)).2⟩

/-- C2. No services or booking route is registered with `authenticateJWT`
(or any other middleware), so the response and resulting store of every
request to the five endpoints are the same for any two values of the
`token` cookie — valid token, invalid token or no cookie at all — and the
status the handler sends is never the middleware's 401 or 403. -/
theorem C2_routes_ignore_auth (s : Store) (c : ApiCall)
    (t1 t2 : Option TokenStr) :
    handleRequest s { call := c, cookieToken := t1 } =
      handleRequest s { call := c, cookieToken := t2 } ∧
    sentStatus (handleRequest s { call := c, cookieToken := t1 }).1 ≠ some 401 ∧
    sentStatus (handleRequest s { call := c, cookieToken := t1 }).1 ≠ some 403 := by
  refine ⟨rfl, ?_⟩
  cases c with
  | listServicesCall => simp [handleRequest, listServices, sentStatus]
  | getServiceCall id =>
    simp only [handleRequest, getServiceById]
    cases hid : objectIdOf id with
    | none => simp [sentStatus]
    | some oid =>
      cases hf : findOneService s.services oid <;> simp [hf, sentStatus]
  | listBookingsCall email => simp [handleRequest, listBookings, sentStatus]
  | createBookingCall body => simp [handleRequest, createBooking, sentStatus]
  | deleteBookingCall id =>
    simp only [handleRequest, deleteBookingById]
    cases hid : objectIdOf id <;> simp [sentStatus]

/-- C2, witness: a request with a freshly issued valid token and the same
request with no cookie get the same answer, and its status is neither 401
nor 403. -/
theorem C2_routes_ignore_auth_witness :
    handleRequest sampleStore
        { call := .listServicesCall,
          cookieToken := some (issueToken "k" 0 "alice") } =
      handleRequest sampleStore { call := .listServicesCall, cookieToken := none } ∧
    sentStatus (handleRequest sampleStore
        { call := .listServicesCall,
          cookieToken := some (issueToken "k" 0 "alice") }).1 ≠ some 401 ∧
    sentStatus (handleRequest sampleStore
        { call := .listServicesCall,
          cookieToken := some (issueToken "k" 0 "alice") }).1 ≠ some 403 :=
  C2_routes_ignore_auth sampleStore .listServicesCall
    (some (issueToken "k" 0 "alice")) none

/-- C5, counterexample. The claim says both handlers answer an invalid
identifier with status 500. On the concrete invalid identifier
`"invalid-id"`, `DELETE /api/v1/booking/:id` does answer 500, but
`GET /api/v1/services/:id` constructs the `ObjectId` before entering its
`try` block, so the constructor's exception escapes the `catch` and the
handler sends no response at all (`sentStatus` is `none`, not `some 500`). -/
theorem C5_counterexample :
    sentStatus (getServiceById sampleStore "invalid-id") = none ∧
    sentStatus (deleteBookingById sampleStore "invalid-id").1 = some 500 := by
  decide

/-- C5, amended. For every path identifier string not convertible to an
`ObjectId`, `delete-booking-by-id` responds with the generic 500 store
error and leaves the store unchanged, while `get-service-by-id` lets the
conversion error escape its `try`/`catch` uncaught, terminating with no
response. -/
theorem C5_invalid_id_amended (s : Store) (id : String)
    (h : objectIdOf id = none) :
    getServiceById s id = HResult.thrown ∧
    deleteBookingById s id =
      (HResult.response 500 (Body.msg "Error deleting booking"), s) := by
  simp [getServiceById, deleteBookingById, h]

/-- C5, amended, witness at the invalid identifier `"invalid-id"`. -/
theorem C5_invalid_id_amended_witness :
    getServiceById sampleStore "invalid-id" = HResult.thrown ∧
    deleteBookingById sampleStore "invalid-id" =
      (HResult.response 500 (Body.msg "Error deleting booking"), sampleStore) :=
  C5_invalid_id_amended sampleStore "invalid-id" (by decide)

/-- C6. The `GET /api/v1/booking` handler with no `email` query parameter
queries the store with the empty filter and answers 200 with all booking
documents; with a (nonempty, hence truthy) `email` value it answers 200
with exactly the documents whose `email` field equals that value — literal
string equality, so no partial matching and no case-insensitivity. -/
theorem C6_list_bookings_filter (s : Store) :
    listBookings s none = .response 200 (.docsB s.booking) ∧
    ∀ e : String, e ≠ "" →
      listBookings s (some e) =
        .response 200 (.docsB (s.booking.filter (fun d => d.email = some e))) := by
  refine ⟨rfl, fun e he => ?_⟩
  simp [listBookings, bookingQuery, findBookings, he]

/-- C6, witness: filtering the sample store by `"a@x.com"` keeps only the
exact match, dropping the case variant `"A@X.com"`, the truncation
`"a@x"` and the document with no email; no filter returns all four. -/
theorem C6_list_bookings_filter_witness :
    listBookings sampleStore none = .response 200 (.docsB sampleStore.booking) ∧
    listBookings sampleStore (some "a@x.com") =
      .response 200 (.docsB [⟨5, some "a@x.com", "b1"⟩]) := by
  refine ⟨(C6_list_bookings_filter sampleStore).1, ?_⟩
  rw [(C6_list_bookings_filter sampleStore).2 "a@x.com" (by decide)]
  decide

/-- C7. Under the store invariant that service identifiers are pairwise
distinct: for a path parameter converting to the identifier of a stored
document, `GET /api/v1/services/:id` answers 200 with exactly that
document; for one converting to an identifier carried by no stored
document, it answers 404 with `{ message: "Service not found" }`. -/
theorem C7_get_service_by_id (s : Store) (id : String) (oid : Nat)
    (hid : objectIdOf id = some oid)
    (hnodup : (s.services.map SDoc.oid).Nodup) :
    (∀ d ∈ s.services, d.oid = oid →
      getServiceById s id = .response 200 (.docS d)) ∧
    ((∀ d ∈ s.services, d.oid ≠ oid) →
      getServiceById s id = .response 404 (.msg "Service not found")) := by
  constructor
  · intro d hm ho
    have hf := findOneService_eq_of_mem s.services oid d hnodup hm ho
    simp [getServiceById, hid, hf]
  · intro habs
    have hf := findOneService_eq_none s.services oid habs
    simp [getServiceById, hid, hf]

/-- C7, witness: identifier 1 resolves to the cleaning service with 200;
the syntactically valid but absent identifier 3 gets the 404 body. -/
theorem C7_get_service_by_id_witness :
    getServiceById sampleStore "000000000000000000000001" =
      .response 200 (.docS ⟨1, "cleaning"⟩) ∧
    getServiceById sampleStore "000000000000000000000003" =
      .response 404 (.msg "Service not found") :=
  ⟨(C7_get_service_by_id sampleStore "000000000000000000000001" 1
      (by decide) (by decide)).1 ⟨1, "cleaning"⟩ (by decide) rfl,
   (C7_get_service_by_id sampleStore "000000000000000000000003" 3
      (by decide) (by decide)).2 (by decide)⟩

/-- C8. Under the store invariant that booking identifiers are pairwise
distinct: for a path parameter converting to the identifier of a stored
booking, the first `DELETE /api/v1/booking/:id` answers 200 with
`deletedCount` 1, and repeating the same request on the resulting store
answers 200 with `deletedCount` 0 — deleting an absent identifier is not
an error. -/
theorem C8_delete_booking_twice (s : Store) (id : String) (oid : Nat)
    (hid : objectIdOf id = some oid)
    (hnodup : (s.booking.map BDoc.oid).Nodup)
    (hmem : oid ∈ s.booking.map BDoc.oid) :
    (deleteBookingById s id).1 = .response 200 (.deleteAck true 1) ∧
    (deleteBookingById (deleteBookingById s id).2 id).1 =
      .response 200 (.deleteAck true 0) := by
  obtain ⟨hc, hnin⟩ := deleteOneBooking_of_mem s.booking oid hnodup hmem
  have h1 : deleteBookingById s id =
      (.response 200 (.deleteAck true (deleteOneBooking s.booking oid).2),
        { s with booking := (deleteOneBooking s.booking oid).1 }) := by
    simp [deleteBookingById, hid]
  have h2 := deleteOneBooking_of_not_mem (deleteOneBooking s.booking oid).1 oid hnin
  constructor
  · rw [h1, hc]
  · rw [h1]
    simp [deleteBookingById, hid, h2]

/-- C8, witness: booking 5 of the sample store, deleted twice via the
24-character identifier string ending in 5. -/
theorem C8_delete_booking_twice_witness :
    (deleteBookingById sampleStore "000000000000000000000005").1 =
      .response 200 (.deleteAck true 1) ∧
    (deleteBookingById (deleteBookingById sampleStore "000000000000000000000005").2
        "000000000000000000000005").1 =
      .response 200 (.deleteAck true 0) :=
  C8_delete_booking_twice sampleStore "000000000000000000000005" 5
    (by decide) (by decide) (by decide)

/-- C9. For every store state and every `email` value, a booking document
arriving in the 200 response of `GET /api/v1/booking?email=...` also
arrives in the 200 response of `GET /api/v1/booking` with no query: the
unfiltered listing is a superset of every filtered one. -/
theorem C9_unfiltered_superset (s : Store) (e : String) (l1 l2 : List BDoc)
    (h1 : listBookings s (some e) = .response 200 (.docsB l1))
    (h2 : listBookings s none = .response 200 (.docsB l2)) :
    l1 ⊆ l2 := by
  have h2' : s.booking = l2 := by
    simpa [listBookings, bookingQuery, findBookings] using h2
  by_cases he : e = ""
  · subst he
    have h1' : s.booking = l1 := by
      simpa [listBookings, bookingQuery, findBookings] using h1
    rw [← h2', ← h1']
    exact fun x hx => hx
  · have h1' : s.booking.filter (fun d => d.email = some e) = l1 := by
      simpa [listBookings, bookingQuery, findBookings, he] using h1
    rw [← h2', ← h1']
    exact fun x hx => (List.mem_filter.mp hx).1

/-- C9, witness: the singleton answer for `"a@x.com"` is contained in the
unfiltered booking listing of the sample store. -/
theorem C9_unfiltered_superset_witness :
    [(⟨5, some "a@x.com", "b1"⟩ : BDoc)] ⊆ sampleStore.booking :=
  C9_unfiltered_superset sampleStore "a@x.com" [⟨5, some "a@x.com", "b1"⟩]
    sampleStore.booking (by decide) (by decide)

/-- C10. A request to `GET /api/v1/booking` with an empty-string `email`
query parameter is answered exactly like one with no `email` parameter:
the truthiness check `if (req.query?.email)` skips the filter and all
booking documents are returned, not only those whose email is the empty
string. -/
theorem C10_empty_email_query (s : Store) :
    listBookings s (some "") = listBookings s none ∧
    listBookings s (some "") = .response 200 (.docsB s.booking) :=
  ⟨rfl, rfl⟩

end HexaServer
